import Mathlib

/-!
# Verification of the audisto data-downloader's resumable chunk-transfer engine

A shallow embedding of `src/main.go`: the `Resumer` checkpoint record, the
chunk-address arithmetic (`nextChunkNumber` / `nextChunk`), the status
classification and adaptive chunk-size shrink of `MainLoop`, the row
processing (header echo / skip / append), and the checkpoint persistence
(`PersistConfig`).  Go `int64` / `int` values are embedded as `Int`; Go's
truncated division and remainder are `Int.tdiv` / `Int.tmod`.  The remote
API is modelled as a function from a chunk address to the list of response
lines, following the pagination semantics of the spec (§4.5: chunk `idx` at
size `cs` holds dataset rows `[idx*cs, idx*cs + cs)`, preceded by a header
line).
-/

namespace DataDownloader

/-- The JSON value written by `Resumer.PersistConfig` (src/main.go:571-588).
`json.MarshalIndent` serialises only the exported fields of `Resumer`
(`OutputFilename`, `DoneElements`, `TotalElements`, `NoDetails`); the
lower-case field `chunkSize` has no JSON tag, is unexported, and is never
serialised. -/
structure ResumerRecord where
  outputFilename : String
  doneElements : Int
  totalElements : Int
  noDetails : Bool
deriving DecidableEq

/-- The `Resumer` struct (src/main.go:57-66), minus the `http.Client`
handle.  `chunkSize` is unexported in Go: its zero value is 0 and it is not
part of the JSON encoding. -/
structure Resumer where
  outputFilename : String
  chunkSize : Int
  doneElements : Int
  totalElements : Int
  noDetails : Bool
deriving DecidableEq

/-- `Resumer.PersistConfig` (src/main.go:571-588), as the record it makes
durable.  Only the exported fields appear in the marshalled JSON. -/
def Resumer.PersistConfig (r : Resumer) : ResumerRecord :=
  { outputFilename := r.outputFilename
    doneElements := r.doneElements
    totalElements := r.totalElements
    noDetails := r.noDetails }

/-- `json.Unmarshal` of a checkpoint record into a fresh `Resumer`
(src/main.go:173-180): exported fields are taken from the record; the
unexported `chunkSize` keeps its Go zero value 0. -/
def loadResumer (cp : ResumerRecord) : Resumer :=
  { outputFilename := cp.outputFilename
    chunkSize := 0
    doneElements := cp.doneElements
    totalElements := cp.totalElements
    noDetails := cp.noDetails }

/-- The tail of `init`'s resume branch (src/main.go:173-204): the checkpoint
record is unmarshalled, then the persisted detail flag is compared with the
flag of the current invocation (line 193).  On mismatch `init` prints a
warning and returns early, skipping the `res.chunkSize = 10000` assignment
at line 203 — but a `return` from Go's `init` does not stop the process, so
`main` still runs with this `Resumer` (and `chunkSize = 0`).  On a match,
`chunkSize` is set to 10000. -/
def initResume (cp : ResumerRecord) (flagNoDetails : Bool) : Resumer :=
  let r := loadResumer cp
  if r.noDetails ≠ flagNoDetails then r
  else { r with chunkSize := 10000 }

/-- `Resumer.nextChunkNumber` (src/main.go:420-433), returning
`(nextChunkNumber, skipNRows)`.  The source computes the chunk index as
`math.Modf(float64(DoneElements) / float64(chunkSize))`, the float64
quotient truncated toward zero; for the magnitudes an int64 session reaches
(|DoneElements| < 2^53) this coincides with truncated integer division,
embedded as `Int.tdiv`.  Go's `%` on int64 is truncated remainder,
embedded as `Int.tmod`. -/
def Resumer.nextChunkNumber (r : Resumer) : Int × Int :=
  if r.doneElements = 0 then (0, 0)
  else (r.doneElements.tdiv r.chunkSize, r.doneElements.tmod r.chunkSize)

/-- The `(chunk index, rows to skip)` pair actually used by
`Resumer.nextChunk` (src/main.go:435-441): the skip count from
`nextChunkNumber` is incremented by one whenever `DoneElements > 0`. -/
def Resumer.nextChunkAddress (r : Resumer) : Int × Int :=
  (r.nextChunkNumber.1,
   if r.doneElements > 0 then r.nextChunkNumber.2 + 1 else r.nextChunkNumber.2)

/-- Model of the remote API's chunk pagination (spec §4.5, §2.6, glossary):
requesting chunk `idx` at size `cs` over a dataset of rows returns a header
line followed by the dataset rows with indices `[idx*cs, idx*cs + cs)`. -/
def chunkResponse (header : String) (dataset : List String) (idx cs : Int) :
    List String :=
  header :: (dataset.drop (idx * cs).toNat).take cs.toNat

/-- The rows the engine appends to the output from one response body
(src/main.go:314-333): when `DoneElements == 0` the scanner first consumes
the header line (echoed separately), then `skip` lines are discarded, and
everything that remains is appended. -/
def appendedRows (done skip : Int) (body : List String) : List String :=
  (if done = 0 then body.drop 1 else body).drop skip.toNat

/-- The whole row-processing step (src/main.go:314-333) as a pure function
on the scanned lines: returns the new output-file contents and the new
`DoneElements` (incremented once per appended row).  When
`DoneElements == 0` the first scanned line is written once before the skip
loop; `bufio.Scanner.Bytes` is empty when `Scan` fails, so an empty body
still writes one empty line in that case. -/
def processBody (done skip : Int) (file body : List String) :
    List String × Int :=
  let headerEcho := if done = 0 then [body.headD ""] else []
  let rest := appendedRows done skip body
  (file ++ headerEcho ++ rest, done + rest.length)

/-- Result of one fetch through `retry(5, 10, ...)` (src/main.go:249-259,
402-418): either all five attempts failed at the transport level
(`netFail`; the `retry` loop incremented the shared error counter four
times, once after each failed attempt except the last) or some attempt
returned a status code and body after `failures` failed attempts (each of
which incremented the error counter).  `scanErr` models
`bufio.Scanner.Err` reporting a malformed body after the rows were
consumed (src/main.go:346-350). -/
inductive FetchResult where
  | netFail
  | ok (failures : Nat) (status : Int) (scanErr : Bool)

/-- Observable actions of one loop iteration. -/
inductive Event where
  | networkCall (chunkIdx chunkSize : Int)
  | sleep30
  | persistCheckpoint (cp : ResumerRecord)
  | removeSidecar
deriving DecidableEq

inductive StepOutcome where
  | next
  | completed
  | aborted
deriving DecidableEq

inductive RunResult where
  | finished
  | aborted
  | fuelOut
deriving DecidableEq

/-- The engine's mutable state: the `Resumer` (package global `res`), the
package-level counters `timeoutCount` and `errorCount`, the flushed
contents of the output file (as a list of lines), and the checkpoint
sidecar (`None` after `os.Remove`). -/
structure EngineState where
  resumer : Resumer
  timeoutCount : Int
  errorCount : Int
  file : List String
  sidecar : Option ResumerRecord
deriving DecidableEq

/-- The chunk size after the clamp of lines 240-243: if fewer elements
remain than the current chunk size, the chunk size is reduced to the
remainder. -/
def clampedSize (st : EngineState) : Int :=
  if st.resumer.totalElements - st.resumer.doneElements < st.resumer.chunkSize
  then st.resumer.totalElements - st.resumer.doneElements
  else st.resumer.chunkSize

/-- Lines 240-243 of `MainLoop`: the in-memory chunk size itself is
overwritten with the clamped value. -/
def clampState (st : EngineState) : EngineState :=
  { st with resumer := { st.resumer with chunkSize := clampedSize st } }

/-- The successful-fetch processing pass: scan / header echo / skip / append
(src/main.go:314-333), flush and `PersistConfig` (lines 335-337), then the
scanner-error check (lines 346-350), which increments the error counter and
aborts — after the checkpoint was already persisted. -/
def processChunkState (server : Int → Int → List String) (st : EngineState)
    (scanErr : Bool) : EngineState × List Event × StepOutcome :=
  let idx := st.resumer.nextChunkAddress.1
  let skip := st.resumer.nextChunkAddress.2
  let body := server idx st.resumer.chunkSize
  let out := processBody st.resumer.doneElements skip st.file body
  let r' := { st.resumer with doneElements := out.2 }
  let cp := r'.PersistConfig
  let st' := { st with resumer := r', file := out.1, sidecar := some cp }
  if scanErr then
    ({ st' with errorCount := st'.errorCount + 1 },
     [Event.networkCall idx st.resumer.chunkSize, Event.persistCheckpoint cp],
     .aborted)
  else
    (st',
     [Event.networkCall idx st.resumer.chunkSize, Event.persistCheckpoint cp],
     .next)

/-- Status classification (src/main.go:263-312).  `errorCount` is
incremented for every non-200 status (lines 265-267) before the `switch`;
429 sleeps 30s and retries; 4xx aborts (403 / 404 / unknown client error);
504 increments `timeoutCount` and, when it has reached 3 and
`chunkSize - 1000 > 0`, shrinks `chunkSize` by 1000 and resets
`timeoutCount`, then sleeps 30s and retries; other 5xx sleep 30s and
retry; every other status falls through to row processing. -/
def handleStatus (server : Int → Int → List String) (st : EngineState)
    (failures : Nat) (status : Int) (scanErr : Bool) :
    EngineState × List Event × StepOutcome :=
  let st := { st with errorCount := st.errorCount + (failures : Int) }
  let st := if status ≠ 200
            then { st with errorCount := st.errorCount + 1 } else st
  let nc := Event.networkCall st.resumer.nextChunkAddress.1
    st.resumer.chunkSize
  if status = 429 then
    (st, [nc, Event.sleep30], .next)
  else if 400 ≤ status ∧ status < 500 then
    (st, [nc], .aborted)
  else if status = 504 then
    let tc := st.timeoutCount + 1
    let st :=
      if tc ≥ 3 then
        if st.resumer.chunkSize - 1000 > 0 then
          { st with
            resumer := { st.resumer with
              chunkSize := st.resumer.chunkSize - 1000 }
            timeoutCount := 0 }
        else { st with timeoutCount := tc }
      else { st with timeoutCount := tc }
    (st, [nc, Event.sleep30], .next)
  else if 500 ≤ status ∧ status < 600 then
    (st, [nc, Event.sleep30], .next)
  else
    processChunkState server st scanErr

/-- One iteration of `MainLoop` (src/main.go:217-352).  The entry check
(lines 227-238) removes the checkpoint sidecar and stops when
`DoneElements == TotalElements`; otherwise the chunk size is clamped
(lines 240-243), the chunk is fetched through `retry(5, 10, ...)` (lines
249-259; exhaustion of the retry budget aborts with a network-error
message), and the returned status is classified. -/
def loopIter (server : Int → Int → List String) (st : EngineState)
    (fetch : FetchResult) : EngineState × List Event × StepOutcome :=
  if st.resumer.doneElements = st.resumer.totalElements then
    ({ st with sidecar := none }, [Event.removeSidecar], .completed)
  else
    let st := clampState st
    match fetch with
    | .netFail =>
        ({ st with errorCount := st.errorCount + 4 },
         [Event.networkCall st.resumer.nextChunkAddress.1
            st.resumer.chunkSize],
         .aborted)
    | .ok failures status scanErr =>
        handleStatus server st failures status scanErr

/-- The transfer loop, driven by a response oracle (one `FetchResult` per
iteration) and bounded by fuel. -/
def run (server : Int → Int → List String) (oracle : Nat → FetchResult) :
    Nat → Nat → EngineState → EngineState × List Event × RunResult
  | 0, _, st => (st, [], .fuelOut)
  | fuel + 1, k, st =>
    match loopIter server st (oracle k) with
    | (st', evs, .completed) => (st', evs, .finished)
    | (st', evs, .aborted) => (st', evs, .aborted)
    | (st', evs, .next) =>
        let r := run server oracle fuel (k + 1) st'
        (r.1, evs ++ r.2.1, r.2.2)

/-- Engine state at the start of a properly initialised file-output
session over a given dataset: `chunkSize` is 10000 (src/main.go:203), the
package-level counters are zero, the output file holds exactly the rows
the checkpoint accounts for (the flush-before-persist discipline of lines
335-337; an empty file for a fresh session, header plus the first `done`
rows otherwise), and the sidecar holds the record written by the last
`PersistConfig` (at creation, line 150, or after a chunk, line 337). -/
def initState (header : String) (dataset : List String) (outfn : String)
    (nd : Bool) (done : Int) : EngineState :=
  { resumer :=
      { outputFilename := outfn
        chunkSize := 10000
        doneElements := done
        totalElements := (dataset.length : Int)
        noDetails := nd }
    timeoutCount := 0
    errorCount := 0
    file := if done = 0 then [] else header :: dataset.take done.toNat
    sidecar := some
      { outputFilename := outfn
        doneElements := done
        totalElements := (dataset.length : Int)
        noDetails := nd } }

/-- A later invocation that resumes from checkpoint `cp` over the on-disk
output `file`: `init` takes the resume branch with a matching detail flag,
so the `Resumer` is the record's fields with `chunkSize = 10000`, and the
process-level counters start at zero. -/
def resumeInvocation (cp : ResumerRecord) (file : List String) :
    EngineState :=
  { resumer := initResume cp cp.noDetails
    timeoutCount := 0
    errorCount := 0
    file := file
    sidecar := some cp }

/-- A server that answers every chunk request according to the pagination
model. -/
def goodServer (header : String) (dataset : List String) :
    Int → Int → List String :=
  chunkResponse header dataset

/-- An oracle in which every fetch succeeds immediately with HTTP 200. -/
def all200 : Nat → FetchResult := fun _ => .ok 0 200 false

/-- The progress counter after one processed chunk against a conforming
server: `DoneElements` advances to the end of the requested chunk window,
`done + (cs - done % cs)`. -/
def nextDone (done cs : Int) : Int := done + (cs - done % cs)

/-- The clamp → address → advance cycle of a fault-free session, reduced to
pure integer arithmetic: returns the list of `(chunk, chunk_size)` query
pairs requested, whether the session completed within the fuel, and the
final in-memory chunk size. -/
def absRun : Nat → Int → Int → Int → List (Int × Int) × Bool × Int
  | 0, _, _, cs => ([], false, cs)
  | fuel + 1, done, total, cs =>
    if done = total then ([], true, cs)
    else
      let cs' := if total - done < cs then total - done else cs
      let idx := if done = 0 then 0 else done / cs'
      let r := absRun fuel (nextDone done cs') total cs'
      ((idx, cs') :: r.1, r.2)

/-- Chunk indices of the data-chunk requests in an event trace, in order. -/
def chunkCalls (evs : List Event) : List Int :=
  evs.filterMap fun e => match e with
    | .networkCall idx _ => some idx
    | _ => none

/-- Chunk sizes of the data-chunk requests in an event trace, in order. -/
def chunkCallSizes (evs : List Event) : List Int :=
  evs.filterMap fun e => match e with
    | .networkCall _ cs => some cs
    | _ => none

/-- The complete output of a session over a dataset: the header plus every
row — except that over an empty dataset the loop completes at once and
writes nothing. -/
def completeOutput (header : String) (dataset : List String) :
    List String :=
  if dataset = [] then [] else header :: dataset

/-- Session invariant tying an engine state to the dataset being
downloaded: the progress counter is within bounds, the chunk size is
positive, the flushed output file holds the header plus exactly the first
`DoneElements` rows, and the sidecar (when present) is the record of the
last `PersistConfig`. -/
def SessionInv (header : String) (dataset : List String)
    (st : EngineState) : Prop :=
  0 ≤ st.resumer.doneElements ∧
  st.resumer.doneElements ≤ st.resumer.totalElements ∧
  0 < st.resumer.chunkSize ∧
  st.resumer.totalElements = (dataset.length : Int) ∧
  st.file = (if st.resumer.doneElements = 0 then []
             else header :: dataset.take st.resumer.doneElements.toNat) ∧
  (st.sidecar = some st.resumer.PersistConfig ∨ st.sidecar = none)

/-- States reachable by the transfer loop against a conforming server: a
properly initialised session start (fresh, or resumed at any checkpointed
progress), closed under loop iterations with arbitrary fetch results
(transport failures, any status code, scan errors). -/
inductive Reachable (header : String) (dataset : List String) :
    EngineState → Prop where
  | start (outfn : String) (nd : Bool) (done : Int)
      (h0 : 0 ≤ done) (h1 : done ≤ (dataset.length : Int)) :
      Reachable header dataset (initState header dataset outfn nd done)
  | step (st : EngineState) (fetch : FetchResult)
      (h : Reachable header dataset st) :
      Reachable header dataset
        (loopIter (goodServer header dataset) st fetch).1

/-! ## Arithmetic of the chunk address -/

/-- For the in-range values of a session, the truncated operations of the
source agree with floor division and Euclidean remainder. -/
lemma nextChunkAddress_eq (r : Resumer) (hd : 0 ≤ r.doneElements)
    (hc : 0 < r.chunkSize) :
    r.nextChunkAddress =
      (if r.doneElements = 0 then (0, 0)
       else (r.doneElements / r.chunkSize,
             r.doneElements % r.chunkSize + 1)) := by
  unfold Resumer.nextChunkAddress Resumer.nextChunkNumber
  by_cases h : r.doneElements = 0
  · simp [h]
  · have hpos : 0 < r.doneElements := lt_of_le_of_ne hd (Ne.symm h)
    simp [h, hpos, Int.tdiv_eq_ediv hd hc.le, Int.tmod_eq_emod hd hc.le]

/-- The rows the engine appends from a conforming response are exactly the
dataset rows starting at index `DoneElements`. -/
lemma appendedRows_good (header : String) (dataset : List String)
    (r : Resumer) (hd : 0 ≤ r.doneElements) (hc : 0 < r.chunkSize) :
    appendedRows r.doneElements r.nextChunkAddress.2
        (chunkResponse header dataset r.nextChunkAddress.1 r.chunkSize) =
      (dataset.drop r.doneElements.toNat).take
        (r.chunkSize.toNat - (r.doneElements % r.chunkSize).toNat) := by
  rw [nextChunkAddress_eq r hd hc]
  by_cases h : r.doneElements = 0
  · simp [h, appendedRows, chunkResponse]
  · have hm0 : 0 ≤ r.doneElements % r.chunkSize :=
      Int.emod_nonneg _ (ne_of_gt hc)
    have hq0 : 0 ≤ r.doneElements / r.chunkSize := Int.ediv_nonneg hd hc.le
    have hqcs : 0 ≤ r.doneElements / r.chunkSize * r.chunkSize :=
      mul_nonneg hq0 hc.le
    have key : r.doneElements / r.chunkSize * r.chunkSize +
        r.doneElements % r.chunkSize = r.doneElements := by
      rw [mul_comm]; exact Int.ediv_add_emod r.doneElements r.chunkSize
    have h1 : (r.doneElements % r.chunkSize + 1).toNat =
        (r.doneElements % r.chunkSize).toNat + 1 := by omega
    have h2 : (r.doneElements / r.chunkSize * r.chunkSize).toNat +
        (r.doneElements % r.chunkSize).toNat = r.doneElements.toNat := by
      omega
    simp only [h, if_false, appendedRows, chunkResponse, h1,
      List.drop_succ_cons, List.drop_take, List.drop_drop, h2]

/-! ## The processing step against a conforming server -/

/-- Length of the appended rows when the whole requested window is within
the dataset. -/
lemma appendedRows_good_length (header : String) (dataset : List String)
    (r : Resumer) (hd : 0 ≤ r.doneElements) (hc : 0 < r.chunkSize)
    (htot : r.totalElements = (dataset.length : Int))
    (hle : r.doneElements + r.chunkSize ≤ r.totalElements) :
    (appendedRows r.doneElements r.nextChunkAddress.2
        (chunkResponse header dataset r.nextChunkAddress.1
          r.chunkSize)).length =
      r.chunkSize.toNat - (r.doneElements % r.chunkSize).toNat := by
  rw [appendedRows_good header dataset r hd hc]
  have hm0 : 0 ≤ r.doneElements % r.chunkSize :=
    Int.emod_nonneg _ (ne_of_gt hc)
  simp only [List.length_take, List.length_drop]
  omega

/-- Full characterisation of `processChunkState` against a conforming
server, for a state whose requested window fits the remaining rows. -/
lemma processChunkState_good (header : String) (dataset : List String)
    (st : EngineState) (e : Bool)
    (hd : 0 ≤ st.resumer.doneElements)
    (hc : 0 < st.resumer.chunkSize)
    (htot : st.resumer.totalElements = (dataset.length : Int))
    (hle : st.resumer.doneElements + st.resumer.chunkSize ≤
      st.resumer.totalElements)
    (hfile : st.file = if st.resumer.doneElements = 0 then []
             else header :: dataset.take st.resumer.doneElements.toNat) :
    (processChunkState (goodServer header dataset) st e).1.resumer =
      { st.resumer with doneElements := (nextDone st.resumer.doneElements
          st.resumer.chunkSize) } ∧
    (processChunkState (goodServer header dataset) st e).1.timeoutCount =
      st.timeoutCount ∧
    (processChunkState (goodServer header dataset) st e).1.file =
      header :: dataset.take
        (nextDone st.resumer.doneElements st.resumer.chunkSize).toNat ∧
    (processChunkState (goodServer header dataset) st e).1.sidecar =
      some { outputFilename := st.resumer.outputFilename,
             doneElements := (nextDone st.resumer.doneElements
               st.resumer.chunkSize),
             totalElements := st.resumer.totalElements,
             noDetails := st.resumer.noDetails } ∧
    (processChunkState (goodServer header dataset) st e).2.1 =
      [Event.networkCall st.resumer.nextChunkAddress.1 st.resumer.chunkSize,
       Event.persistCheckpoint
         { outputFilename := st.resumer.outputFilename,
           doneElements := (nextDone st.resumer.doneElements
             st.resumer.chunkSize),
           totalElements := st.resumer.totalElements,
           noDetails := st.resumer.noDetails }] ∧
    (processChunkState (goodServer header dataset) st e).2.2 =
      (if e then StepOutcome.aborted else StepOutcome.next) ∧
    st.resumer.doneElements <
      nextDone st.resumer.doneElements st.resumer.chunkSize ∧
    nextDone st.resumer.doneElements st.resumer.chunkSize ≤
      st.resumer.totalElements := by
  have hm0 : 0 ≤ st.resumer.doneElements % st.resumer.chunkSize :=
    Int.emod_nonneg _ (ne_of_gt hc)
  have hmlt : st.resumer.doneElements % st.resumer.chunkSize <
      st.resumer.chunkSize := Int.emod_lt_of_pos _ hc
  have hdone : st.resumer.doneElements +
      ((appendedRows st.resumer.doneElements st.resumer.nextChunkAddress.2
        (chunkResponse header dataset st.resumer.nextChunkAddress.1
          st.resumer.chunkSize)).length : Int) =
      nextDone st.resumer.doneElements st.resumer.chunkSize := by
    rw [appendedRows_good_length header dataset st.resumer hd hc htot hle]
    unfold nextDone
    omega
  have hfile' :
      st.file ++ (if st.resumer.doneElements = 0
        then [(chunkResponse header dataset
          st.resumer.nextChunkAddress.1 st.resumer.chunkSize).headD ""]
        else []) ++
        appendedRows st.resumer.doneElements st.resumer.nextChunkAddress.2
          (chunkResponse header dataset st.resumer.nextChunkAddress.1
            st.resumer.chunkSize) =
      header :: dataset.take
        (nextDone st.resumer.doneElements st.resumer.chunkSize).toNat := by
    rw [appendedRows_good header dataset st.resumer hd hc, hfile]
    by_cases h : st.resumer.doneElements = 0
    · have hval : nextDone 0 st.resumer.chunkSize = st.resumer.chunkSize := by
        simp [nextDone, Int.zero_emod]
      simp only [h, if_true, chunkResponse, List.headD_cons,
        List.nil_append, Int.toNat_zero, List.drop_zero, Int.zero_emod,
        Nat.sub_zero, hval, List.singleton_append]
    · have hnd : (nextDone st.resumer.doneElements
          st.resumer.chunkSize).toNat =
          st.resumer.doneElements.toNat + (st.resumer.chunkSize.toNat -
            (st.resumer.doneElements % st.resumer.chunkSize).toNat) := by
        unfold nextDone
        omega
      simp only [h, if_false, List.append_nil, List.cons_append,
        List.append_nil]
      rw [hnd, List.take_add]
  have hlt : st.resumer.doneElements <
      nextDone st.resumer.doneElements st.resumer.chunkSize := by
    unfold nextDone; omega
  have hleN : nextDone st.resumer.doneElements st.resumer.chunkSize ≤
      st.resumer.totalElements := by
    unfold nextDone; omega
  unfold processChunkState processBody goodServer
  cases e
  · exact ⟨congrArg (fun d => ({ st.resumer with doneElements := d } :
        Resumer)) hdone,
      rfl, hfile',
      congrArg (fun d => some
        ({ outputFilename := st.resumer.outputFilename,
           doneElements := d,
           totalElements := st.resumer.totalElements,
           noDetails := st.resumer.noDetails } : ResumerRecord)) hdone,
      congrArg (fun d =>
        [Event.networkCall st.resumer.nextChunkAddress.1
          st.resumer.chunkSize,
         Event.persistCheckpoint
          { outputFilename := st.resumer.outputFilename,
            doneElements := d,
            totalElements := st.resumer.totalElements,
            noDetails := st.resumer.noDetails }]) hdone,
      rfl, hlt, hleN⟩
  · exact ⟨congrArg (fun d => ({ st.resumer with doneElements := d } :
        Resumer)) hdone,
      rfl, hfile',
      congrArg (fun d => some
        ({ outputFilename := st.resumer.outputFilename,
           doneElements := d,
           totalElements := st.resumer.totalElements,
           noDetails := st.resumer.noDetails } : ResumerRecord)) hdone,
      congrArg (fun d =>
        [Event.networkCall st.resumer.nextChunkAddress.1
          st.resumer.chunkSize,
         Event.persistCheckpoint
          { outputFilename := st.resumer.outputFilename,
            doneElements := d,
            totalElements := st.resumer.totalElements,
            noDetails := st.resumer.noDetails }]) hdone,
      rfl, hlt, hleN⟩

/-! ## Status classification -/

lemma clampedSize_pos (st : EngineState)
    (hlt : st.resumer.doneElements < st.resumer.totalElements)
    (hc : 0 < st.resumer.chunkSize) : 0 < clampedSize st := by
  unfold clampedSize
  split <;> omega

lemma clampedSize_le (st : EngineState) :
    st.resumer.doneElements + clampedSize st ≤ st.resumer.totalElements := by
  unfold clampedSize
  split <;> omega

/-- On every status the engine handles without processing rows (429, 4xx,
504, other 5xx) the progress counter, the file and the sidecar are
untouched, and the chunk size either stays or shrinks by exactly 1000 under
the positivity guard. -/
lemma handleStatus_nonproc (server : Int → Int → List String)
    (st : EngineState) (f : Nat) (status : Int) (e : Bool)
    (hin : 400 ≤ status ∧ status < 600) :
    ((handleStatus server st f status e).1.resumer.doneElements =
        st.resumer.doneElements ∧
      (handleStatus server st f status e).1.resumer.totalElements =
        st.resumer.totalElements ∧
      (handleStatus server st f status e).1.resumer.outputFilename =
        st.resumer.outputFilename ∧
      (handleStatus server st f status e).1.resumer.noDetails =
        st.resumer.noDetails ∧
      (handleStatus server st f status e).1.file = st.file ∧
      (handleStatus server st f status e).1.sidecar = st.sidecar) ∧
    ((handleStatus server st f status e).1.resumer.chunkSize =
        st.resumer.chunkSize ∨
      ((handleStatus server st f status e).1.resumer.chunkSize =
          st.resumer.chunkSize - 1000 ∧ 1000 < st.resumer.chunkSize)) := by
  have h200 : status ≠ 200 := by omega
  unfold handleStatus
  simp only [ne_eq, h200, not_false_eq_true, ite_true]
  split_ifs with h1 h2 h3 h4 h5 h6
  · exact ⟨⟨rfl, rfl, rfl, rfl, rfl, rfl⟩, Or.inl rfl⟩
  · exact ⟨⟨rfl, rfl, rfl, rfl, rfl, rfl⟩, Or.inl rfl⟩
  · exact ⟨⟨rfl, rfl, rfl, rfl, rfl, rfl⟩, Or.inr ⟨rfl, by omega⟩⟩
  · exact ⟨⟨rfl, rfl, rfl, rfl, rfl, rfl⟩, Or.inl rfl⟩
  · exact ⟨⟨rfl, rfl, rfl, rfl, rfl, rfl⟩, Or.inl rfl⟩
  · exact ⟨⟨rfl, rfl, rfl, rfl, rfl, rfl⟩, Or.inl rfl⟩
  · exact absurd hin (by omega)

/-- A 200 response goes straight to row processing, with the error counter
only advanced by the failed retry attempts. -/
lemma handleStatus_200 (server : Int → Int → List String)
    (st : EngineState) (f : Nat) (e : Bool) :
    handleStatus server st f 200 e =
      processChunkState server
        { st with errorCount := st.errorCount + (f : Int) } e := rfl

/-- Every status that is neither 200 nor in `[400, 600)` also falls through
to row processing, after one extra error-counter increment. -/
lemma handleStatus_proc_ne200 (server : Int → Int → List String)
    (st : EngineState) (f : Nat) (status : Int) (e : Bool)
    (hout : ¬(400 ≤ status ∧ status < 600)) (h200 : status ≠ 200) :
    handleStatus server st f status e =
      processChunkState server
        { st with errorCount := st.errorCount + (f : Int) + 1 } e := by
  have h429 : ¬(status = 429) := by omega
  have h4xx : ¬(400 ≤ status ∧ status < 500) := by omega
  have h504 : ¬(status = 504) := by omega
  have h5xx : ¬(500 ≤ status ∧ status < 600) := by omega
  unfold handleStatus
  simp only [ne_eq, h200, not_false_eq_true, ite_true, h429, h4xx, h504,
    h5xx, ite_false]

/-! ## Invariant preservation -/

lemma clampState_resumer (st : EngineState) :
    (clampState st).resumer =
      { st.resumer with chunkSize := clampedSize st } := rfl

lemma clampState_file (st : EngineState) :
    (clampState st).file = st.file := rfl

lemma clampState_sidecar (st : EngineState) :
    (clampState st).sidecar = st.sidecar := rfl

lemma clampState_tc (st : EngineState) :
    (clampState st).timeoutCount = st.timeoutCount := rfl

lemma errcSet_resumer (st : EngineState) (c : Int) :
    ({ st with errorCount := c } : EngineState).resumer = st.resumer := rfl

lemma errcSet_file (st : EngineState) (c : Int) :
    ({ st with errorCount := c } : EngineState).file = st.file := rfl

lemma errcSet_tc (st : EngineState) (c : Int) :
    ({ st with errorCount := c } : EngineState).timeoutCount =
      st.timeoutCount := rfl

/-- `loopIter` at a finished session: remove the sidecar and stop. -/
lemma loopIter_done (server : Int → Int → List String) (st : EngineState)
    (fetch : FetchResult)
    (heq : st.resumer.doneElements = st.resumer.totalElements) :
    loopIter server st fetch =
      ({ st with sidecar := none }, [Event.removeSidecar],
        StepOutcome.completed) := by
  unfold loopIter
  rw [if_pos heq]

/-- `loopIter` when the retry budget was exhausted at the transport level. -/
lemma loopIter_netFail (server : Int → Int → List String)
    (st : EngineState)
    (hne : st.resumer.doneElements ≠ st.resumer.totalElements) :
    loopIter server st .netFail =
      ({ clampState st with
          errorCount := (clampState st).errorCount + 4 },
       [Event.networkCall (clampState st).resumer.nextChunkAddress.1
          (clampState st).resumer.chunkSize],
       StepOutcome.aborted) := by
  unfold loopIter
  rw [if_neg hne]

/-- `loopIter` on a fetch that returned a status code. -/
lemma loopIter_ok (server : Int → Int → List String) (st : EngineState)
    (f : Nat) (status : Int) (e : Bool)
    (hne : st.resumer.doneElements ≠ st.resumer.totalElements) :
    loopIter server st (.ok f status e) =
      handleStatus server (clampState st) f status e := by
  unfold loopIter
  rw [if_neg hne]

lemma sessionInv_step (header : String) (dataset : List String)
    (st : EngineState) (fetch : FetchResult)
    (hInv : SessionInv header dataset st) :
    SessionInv header dataset
      (loopIter (goodServer header dataset) st fetch).1 := by
  obtain ⟨hd, hdt, hc, htot, hfile, hsc⟩ := hInv
  by_cases hne : st.resumer.doneElements = st.resumer.totalElements
  · rw [loopIter_done _ _ _ hne]
    exact ⟨hd, hdt, hc, htot, hfile, Or.inr rfl⟩
  · have hlt : st.resumer.doneElements < st.resumer.totalElements :=
      lt_of_le_of_ne hdt hne
    have hcp : 0 < clampedSize st := clampedSize_pos st hlt hc
    have hcl : st.resumer.doneElements + clampedSize st ≤
        st.resumer.totalElements := clampedSize_le st
    cases fetch with
    | netFail =>
        rw [loopIter_netFail _ _ hne]
        exact ⟨hd, hdt, hcp, htot, hfile, hsc⟩
    | ok f status e =>
        rw [loopIter_ok _ _ _ _ _ hne]
        by_cases hin : 400 ≤ status ∧ status < 600
        · obtain ⟨⟨e1, e2, e3, e4, e5, e6⟩, e7⟩ :=
            handleStatus_nonproc (goodServer header dataset)
              (clampState st) f status e hin
          simp only [clampState_resumer, clampState_file,
            clampState_sidecar] at e1 e2 e3 e4 e5 e6 e7
          have ecp : (handleStatus (goodServer header dataset)
              (clampState st) f status e).1.resumer.PersistConfig =
              st.resumer.PersistConfig := by
            unfold Resumer.PersistConfig
            rw [e1, e2, e3, e4]
          refine ⟨?_, ?_, ?_, ?_, ?_, ?_⟩
          · rw [e1]; exact hd
          · rw [e1, e2]; exact hdt
          · rcases e7 with h | ⟨h, hgt⟩
            · rw [h]; exact hcp
            · rw [h]; omega
          · rw [e2]; exact htot
          · rw [e5, e1]; exact hfile
          · rw [e6, ecp]; exact hsc
        · have happ : ∀ c : Int,
              SessionInv header dataset
                (processChunkState (goodServer header dataset)
                  { clampState st with errorCount := c } e).1 := by
            intro c
            simp only [errcSet_resumer, clampState_resumer]
            obtain ⟨p1, p2, p3, p4, p5, p6, p7, p8⟩ :=
              processChunkState_good header dataset
                { clampState st with errorCount := c } e hd hcp htot hcl
                hfile
            simp only [errcSet_resumer, clampState_resumer]
              at p1 p3 p4 p7 p8
            have hne0 : nextDone st.resumer.doneElements (clampedSize st) ≠
                0 := by omega
            refine ⟨?_, ?_, ?_, ?_, ?_, ?_⟩
            · rw [p1]
              show 0 ≤ nextDone st.resumer.doneElements (clampedSize st)
              omega
            · rw [p1]
              exact p8
            · rw [p1]
              exact hcp
            · rw [p1]
              exact htot
            · rw [p3, p1]
              show header :: _ = if nextDone st.resumer.doneElements
                  (clampedSize st) = 0 then [] else _
              rw [if_neg hne0]
            · rw [p4, p1]
              left
              unfold Resumer.PersistConfig
              rfl
          by_cases h200 : status = 200
          · subst h200
            rw [handleStatus_200]
            exact happ _
          · rw [handleStatus_proc_ne200 _ _ _ _ _ hin h200]
            exact happ _

/-- Every reachable state satisfies the session invariant. -/
lemma reachable_sessionInv (header : String) (dataset : List String)
    (st : EngineState) (h : Reachable header dataset st) :
    SessionInv header dataset st := by
  induction h with
  | start outfn nd done h0 h1 =>
      refine ⟨h0, h1, ?_, rfl, rfl, Or.inl rfl⟩
      show (0 : Int) < 10000
      norm_num
  | step st fetch h ih => exact sessionInv_step header dataset st fetch ih

/-- One fault-free 200 iteration, decomposed into its observable parts. -/
lemma loopIter_200_parts (header : String) (dataset : List String)
    (st : EngineState) (hInv : SessionInv header dataset st)
    (hne : st.resumer.doneElements ≠ st.resumer.totalElements) :
    (loopIter (goodServer header dataset) st (.ok 0 200 false)).2.2 =
      StepOutcome.next ∧
    (loopIter (goodServer header dataset) st (.ok 0 200 false)).2.1 =
      [Event.networkCall
        ({ st.resumer with chunkSize := clampedSize st } :
          Resumer).nextChunkAddress.1 (clampedSize st),
       Event.persistCheckpoint
        { outputFilename := st.resumer.outputFilename,
          doneElements := (nextDone st.resumer.doneElements
            (clampedSize st)),
          totalElements := st.resumer.totalElements,
          noDetails := st.resumer.noDetails }] ∧
    (loopIter (goodServer header dataset) st
        (.ok 0 200 false)).1.resumer.doneElements =
      nextDone st.resumer.doneElements (clampedSize st) ∧
    (loopIter (goodServer header dataset) st
        (.ok 0 200 false)).1.resumer.totalElements =
      st.resumer.totalElements ∧
    (loopIter (goodServer header dataset) st
        (.ok 0 200 false)).1.resumer.chunkSize = clampedSize st ∧
    (loopIter (goodServer header dataset) st (.ok 0 200 false)).1.file =
      header :: dataset.take
        (nextDone st.resumer.doneElements (clampedSize st)).toNat ∧
    st.resumer.doneElements <
      nextDone st.resumer.doneElements (clampedSize st) ∧
    nextDone st.resumer.doneElements (clampedSize st) ≤
      st.resumer.totalElements := by
  obtain ⟨hd, hdt, hc, htot, hfile, hsc⟩ := hInv
  have hlt : st.resumer.doneElements < st.resumer.totalElements :=
    lt_of_le_of_ne hdt hne
  have hcp : 0 < clampedSize st := clampedSize_pos st hlt hc
  have hcl : st.resumer.doneElements + clampedSize st ≤
      st.resumer.totalElements := clampedSize_le st
  rw [loopIter_ok _ _ _ _ _ hne, handleStatus_200]
  simp only [errcSet_resumer, clampState_resumer]
  obtain ⟨p1, p2, p3, p4, p5, p6, p7, p8⟩ :=
    processChunkState_good header dataset
      { clampState st with
        errorCount := (clampState st).errorCount + ((0 : Nat) : Int) }
      false hd hcp htot hcl hfile
  simp only [errcSet_resumer, clampState_resumer]
    at p1 p3 p4 p5 p6 p7 p8
  exact ⟨by rw [p6]; rfl, p5, by rw [p1], by rw [p1], by rw [p1], p3, p7, p8⟩


/-! ## Fault-free runs -/

/-- A fault-free session (every fetch an immediate 200 with a conforming
body) finishes within `total - done + 1` iterations and leaves exactly the
complete output in the file. -/
lemma runGood_finishes (header : String) (dataset : List String) :
    ∀ (fuel k : Nat) (st : EngineState), SessionInv header dataset st →
    (st.resumer.totalElements - st.resumer.doneElements).toNat < fuel →
    (run (goodServer header dataset) all200 fuel k st).2.2 =
      RunResult.finished ∧
    (run (goodServer header dataset) all200 fuel k st).1.file =
      completeOutput header dataset := by
  intro fuel
  induction fuel with
  | zero =>
      intro k st hInv hf
      omega
  | succ n ih =>
      intro k st hInv hf
      by_cases hne : st.resumer.doneElements = st.resumer.totalElements
      · obtain ⟨hd, hdt, hc, htot, hfile, hsc⟩ := hInv
        have hrun : run (goodServer header dataset) all200 (n + 1) k st =
            ({ st with sidecar := none }, [Event.removeSidecar],
              RunResult.finished) := by
          simp only [run]
          rw [loopIter_done (goodServer header dataset) st (all200 k) hne]
        rw [hrun]
        refine ⟨rfl, ?_⟩
        show st.file = completeOutput header dataset
        rw [hfile]
        unfold completeOutput
        by_cases hz : dataset = []
        · subst hz
          have : st.resumer.doneElements = 0 := by
            simp only [List.length_nil] at htot
            omega
          rw [if_pos this, if_pos rfl]
        · have hlen : 0 < dataset.length := List.length_pos.mpr hz
          have hdl : st.resumer.doneElements = (dataset.length : Int) :=
            hne.trans htot
          have hd0 : st.resumer.doneElements ≠ 0 := by omega
          rw [if_neg hd0, if_neg hz]
          have htn : st.resumer.doneElements.toNat = dataset.length := by
            omega
          rw [htn, List.take_length]
      · obtain ⟨q1, q2, q3, q4, q5, q6, q7, q8⟩ :=
          loopIter_200_parts header dataset st hInv hne
        have heta : loopIter (goodServer header dataset) st (all200 k) =
            ((loopIter (goodServer header dataset) st
                (FetchResult.ok 0 200 false)).1,
             (loopIter (goodServer header dataset) st
                (FetchResult.ok 0 200 false)).2.1,
             StepOutcome.next) := by
          rw [show all200 k = FetchResult.ok 0 200 false from rfl, ← q1]
        have hrun : run (goodServer header dataset) all200 (n + 1) k st =
            ((run (goodServer header dataset) all200 n (k + 1)
                (loopIter (goodServer header dataset) st
                  (FetchResult.ok 0 200 false)).1).1,
             (loopIter (goodServer header dataset) st
                (FetchResult.ok 0 200 false)).2.1 ++
               (run (goodServer header dataset) all200 n (k + 1)
                 (loopIter (goodServer header dataset) st
                   (FetchResult.ok 0 200 false)).1).2.1,
             (run (goodServer header dataset) all200 n (k + 1)
               (loopIter (goodServer header dataset) st
                 (FetchResult.ok 0 200 false)).1).2.2) := by
          simp only [run]
          rw [heta]
        have hInv' : SessionInv header dataset
            (loopIter (goodServer header dataset) st
              (FetchResult.ok 0 200 false)).1 :=
          sessionInv_step header dataset st (FetchResult.ok 0 200 false)
            hInv
        have hfuel : ((loopIter (goodServer header dataset) st
            (FetchResult.ok 0 200 false)).1.resumer.totalElements -
            (loopIter (goodServer header dataset) st
              (FetchResult.ok 0 200 false)).1.resumer.doneElements).toNat
            < n := by
          rw [q3, q4]
          omega
        have := ih (k + 1)
          (loopIter (goodServer header dataset) st
            (FetchResult.ok 0 200 false)).1 hInv' hfuel
        rw [hrun]
        exact ⟨this.1, this.2⟩

lemma chunkCalls_append (l1 l2 : List Event) :
    chunkCalls (l1 ++ l2) = chunkCalls l1 ++ chunkCalls l2 := by
  unfold chunkCalls
  exact List.filterMap_append l1 l2 _

lemma chunkCallSizes_append (l1 l2 : List Event) :
    chunkCallSizes (l1 ++ l2) = chunkCallSizes l1 ++ chunkCallSizes l2 := by
  unfold chunkCallSizes
  exact List.filterMap_append l1 l2 _

/-- The chunk index actually requested from the clamped state, in closed
form. -/
lemma clamped_addr (st : EngineState) (hd : 0 ≤ st.resumer.doneElements)
    (hcp : 0 < clampedSize st) :
    ({ st.resumer with chunkSize := clampedSize st } :
        Resumer).nextChunkAddress.1 =
      (if st.resumer.doneElements = 0 then 0
       else st.resumer.doneElements / clampedSize st) := by
  rw [nextChunkAddress_eq
    ({ st.resumer with chunkSize := clampedSize st } : Resumer) hd hcp]
  by_cases h : st.resumer.doneElements = 0 <;> simp [h]

/-- The chunk requests, completion flag and final in-memory chunk size of a
fault-free run coincide with the arithmetic recursion `absRun`. -/
lemma absRun_spec (header : String) (dataset : List String) :
    ∀ (fuel k : Nat) (st : EngineState), SessionInv header dataset st →
    chunkCalls (run (goodServer header dataset) all200 fuel k st).2.1 =
      (absRun fuel st.resumer.doneElements st.resumer.totalElements
        st.resumer.chunkSize).1.map Prod.fst ∧
    chunkCallSizes (run (goodServer header dataset) all200 fuel k st).2.1 =
      (absRun fuel st.resumer.doneElements st.resumer.totalElements
        st.resumer.chunkSize).1.map Prod.snd ∧
    ((run (goodServer header dataset) all200 fuel k st).2.2 =
        RunResult.finished ↔
      (absRun fuel st.resumer.doneElements st.resumer.totalElements
        st.resumer.chunkSize).2.1 = true) ∧
    (run (goodServer header dataset) all200 fuel k st).1.resumer.chunkSize
      = (absRun fuel st.resumer.doneElements st.resumer.totalElements
        st.resumer.chunkSize).2.2 := by
  intro fuel
  induction fuel with
  | zero =>
      intro k st hInv
      refine ⟨rfl, rfl, ?_, rfl⟩
      simp [run, absRun]
  | succ n ih =>
      intro k st hInv
      by_cases hne : st.resumer.doneElements = st.resumer.totalElements
      · have hrun : run (goodServer header dataset) all200 (n + 1) k st =
            ({ st with sidecar := none }, [Event.removeSidecar],
              RunResult.finished) := by
          simp only [run]
          rw [loopIter_done (goodServer header dataset) st (all200 k) hne]
        have habs : absRun (n + 1) st.resumer.doneElements
            st.resumer.totalElements st.resumer.chunkSize =
            ([], true, st.resumer.chunkSize) := by
          simp only [absRun]
          rw [if_pos hne]
        rw [hrun, habs]
        exact ⟨rfl, rfl, by simp, rfl⟩
      · obtain ⟨hd, hdt, hc, htot, hfile, hsc⟩ := id hInv
        have hlt : st.resumer.doneElements < st.resumer.totalElements :=
          lt_of_le_of_ne hdt hne
        have hcp : 0 < clampedSize st := clampedSize_pos st hlt hc
        obtain ⟨q1, q2, q3, q4, q5, q6, q7, q8⟩ :=
          loopIter_200_parts header dataset st hInv hne
        have heta : loopIter (goodServer header dataset) st (all200 k) =
            ((loopIter (goodServer header dataset) st
                (FetchResult.ok 0 200 false)).1,
             (loopIter (goodServer header dataset) st
                (FetchResult.ok 0 200 false)).2.1,
             StepOutcome.next) := by
          rw [show all200 k = FetchResult.ok 0 200 false from rfl, ← q1]
        have hrun : run (goodServer header dataset) all200 (n + 1) k st =
            ((run (goodServer header dataset) all200 n (k + 1)
                (loopIter (goodServer header dataset) st
                  (FetchResult.ok 0 200 false)).1).1,
             (loopIter (goodServer header dataset) st
                (FetchResult.ok 0 200 false)).2.1 ++
               (run (goodServer header dataset) all200 n (k + 1)
                 (loopIter (goodServer header dataset) st
                   (FetchResult.ok 0 200 false)).1).2.1,
             (run (goodServer header dataset) all200 n (k + 1)
               (loopIter (goodServer header dataset) st
                 (FetchResult.ok 0 200 false)).1).2.2) := by
          simp only [run]
          rw [heta]
        have hInv' : SessionInv header dataset
            (loopIter (goodServer header dataset) st
              (FetchResult.ok 0 200 false)).1 :=
          sessionInv_step header dataset st (FetchResult.ok 0 200 false)
            hInv
        have IH := ih (k + 1)
          (loopIter (goodServer header dataset) st
            (FetchResult.ok 0 200 false)).1 hInv'
        rw [q3, q4, q5] at IH
        have habs : absRun (n + 1) st.resumer.doneElements
            st.resumer.totalElements st.resumer.chunkSize =
            (((if st.resumer.doneElements = 0 then 0
               else st.resumer.doneElements / clampedSize st),
              clampedSize st) ::
              (absRun n
                (nextDone st.resumer.doneElements (clampedSize st))
                st.resumer.totalElements (clampedSize st)).1,
             (absRun n
               (nextDone st.resumer.doneElements (clampedSize st))
               st.resumer.totalElements (clampedSize st)).2) := by
          simp only [absRun]
          rw [if_neg hne]
          simp only [clampedSize]
        rw [hrun, habs]
        refine ⟨?_, ?_, ?_, ?_⟩
        · rw [q2, chunkCalls_append, IH.1, clamped_addr st hd hcp]
          rfl
        · rw [q2, chunkCallSizes_append, IH.2.1]
          rfl
        · exact IH.2.2.1
        · exact IH.2.2.2

/-! ## Sidecar removal discipline -/

/-- In one iteration, `os.Remove` of the sidecar happens exactly on the
completion branch, and is the only event of that branch. -/
lemma loopIter_removeSidecar (server : Int → Int → List String)
    (st : EngineState) (fetch : FetchResult) :
    ((loopIter server st fetch).2.2 = StepOutcome.completed →
      (loopIter server st fetch).2.1 = [Event.removeSidecar]) ∧
    ((loopIter server st fetch).2.2 ≠ StepOutcome.completed →
      Event.removeSidecar ∉ (loopIter server st fetch).2.1) := by
  by_cases hne : st.resumer.doneElements = st.resumer.totalElements
  · rw [loopIter_done _ _ _ hne]
    exact ⟨fun _ => rfl, fun h => absurd rfl h⟩
  · cases fetch with
    | netFail =>
        rw [loopIter_netFail _ _ hne]
        constructor
        · intro h
          exact absurd h (by simp)
        · intro _
          simp
    | ok f status e =>
        rw [loopIter_ok _ _ _ _ _ hne]
        unfold handleStatus processChunkState
        split_ifs <;> constructor <;> intro h <;> simp_all

/-- Along any run, the sidecar-removal event occurs exactly on successful
completion, as the final event of the trace; aborted or fuel-exhausted
runs never remove the sidecar. -/
lemma run_removeSidecar (server : Int → Int → List String)
    (oracle : Nat → FetchResult) :
    ∀ (fuel k : Nat) (st : EngineState),
    ((run server oracle fuel k st).2.2 = RunResult.finished →
      ∃ pre, (run server oracle fuel k st).2.1 =
          pre ++ [Event.removeSidecar] ∧
        Event.removeSidecar ∉ pre) ∧
    ((run server oracle fuel k st).2.2 ≠ RunResult.finished →
      Event.removeSidecar ∉ (run server oracle fuel k st).2.1) := by
  intro fuel
  induction fuel with
  | zero =>
      intro k st
      constructor
      · intro h
        exact absurd h (by simp [run])
      · intro _
        simp [run]
  | succ n ih =>
      intro k st
      rcases hL : loopIter server st (oracle k) with ⟨st', evs, o⟩
      have hparts := loopIter_removeSidecar server st (oracle k)
      rw [hL] at hparts
      cases o with
      | completed =>
          have hevs : evs = [Event.removeSidecar] := hparts.1 rfl
          have hrun : run server oracle (n + 1) k st =
              (st', evs, RunResult.finished) := by
            simp only [run]
            rw [hL]
          rw [hrun]
          constructor
          · intro _
            exact ⟨[], by simp [hevs], by simp⟩
          · intro h
            exact absurd rfl h
      | aborted =>
          have hmem : Event.removeSidecar ∉ evs := hparts.2 (by simp)
          have hrun : run server oracle (n + 1) k st =
              (st', evs, RunResult.aborted) := by
            simp only [run]
            rw [hL]
          rw [hrun]
          constructor
          · intro h
            exact absurd h (by simp)
          · intro _
            exact hmem
      | next =>
          have hmem : Event.removeSidecar ∉ evs := hparts.2 (by simp)
          have hrun : run server oracle (n + 1) k st =
              ((run server oracle n (k + 1) st').1,
               evs ++ (run server oracle n (k + 1) st').2.1,
               (run server oracle n (k + 1) st').2.2) := by
            simp only [run]
            rw [hL]
          rw [hrun]
          obtain ⟨ih1, ih2⟩ := ih (k + 1) st'
          constructor
          · intro h
            obtain ⟨pre, hpre, hnp⟩ := ih1 h
            refine ⟨evs ++ pre, ?_, ?_⟩
            · rw [hpre, List.append_assoc]
            · intro hmem2
              rcases List.mem_append.mp hmem2 with h2 | h2
              · exact hmem h2
              · exact hnp h2
          · intro h hmem2
            rcases List.mem_append.mp hmem2 with h2 | h2
            · exact hmem h2
            · exact ih2 h h2

/-! ## Single-status reductions and resume loading -/

/-- The 429 branch in closed form. -/
lemma handleStatus_429 (server : Int → Int → List String)
    (st : EngineState) (f : Nat) (e : Bool) :
    handleStatus server st f 429 e =
      ({ st with errorCount := st.errorCount + (f : Int) + 1 },
       [Event.networkCall st.resumer.nextChunkAddress.1
          st.resumer.chunkSize, Event.sleep30],
       StepOutcome.next) := rfl

/-- The 504 branch in closed form. -/
lemma handleStatus_504 (server : Int → Int → List String)
    (st : EngineState) (f : Nat) (e : Bool) :
    handleStatus server st f 504 e =
      (if st.timeoutCount + 1 ≥ 3 then
         (if st.resumer.chunkSize - 1000 > 0 then
            { st with
              resumer := { st.resumer with
                chunkSize := st.resumer.chunkSize - 1000 },
              timeoutCount := 0,
              errorCount := st.errorCount + (f : Int) + 1 }
          else { st with
                 timeoutCount := st.timeoutCount + 1,
                 errorCount := st.errorCount + (f : Int) + 1 })
       else { st with
              timeoutCount := st.timeoutCount + 1,
              errorCount := st.errorCount + (f : Int) + 1 },
       [Event.networkCall st.resumer.nextChunkAddress.1
          st.resumer.chunkSize, Event.sleep30],
       StepOutcome.next) := rfl

/-- When the chunk size already fits the remaining rows, the clamp is the
identity. -/
lemma clampState_id (st : EngineState)
    (hcl : st.resumer.chunkSize ≤
      st.resumer.totalElements - st.resumer.doneElements) :
    clampState st = st := by
  unfold clampState clampedSize
  rw [if_neg (by omega)]

/-- Resuming with the flag recorded in the checkpoint loads the record's
fields and sets the chunk size to 10000. -/
lemma initResume_same (cp : ResumerRecord) :
    initResume cp cp.noDetails =
      ⟨cp.outputFilename, 10000, cp.doneElements, cp.totalElements,
        cp.noDetails⟩ := by
  simp [initResume, loadResumer]

/-- `processChunkState` only threads the error counter through. -/
lemma processChunkState_errc (server : Int → Int → List String)
    (st : EngineState) (c : Int) :
    processChunkState server { st with errorCount := c } false =
      ({ (processChunkState server st false).1 with errorCount := c },
       (processChunkState server st false).2.1,
       (processChunkState server st false).2.2) := rfl

/-! ## Claims -/

/-- C1: for every `chunkSize > 0` and `0 ≤ doneElements ≤ totalElements`,
the chunk address computed before each request is `(0, 0)` when
`doneElements = 0`, and otherwise
`(⌊doneElements / chunkSize⌋, doneElements % chunkSize + 1)`; this address
correctly locates row `doneElements` within the row stream produced by
requesting that chunk index at that chunk size: the rows the engine
appends from the response are exactly the dataset rows from index
`doneElements` on, and in particular the first appended row is row
`doneElements` itself. -/
theorem C1_chunk_addressing (header : String) (dataset : List String)
    (r : Resumer) (hd : 0 ≤ r.doneElements)
    (ht : r.doneElements ≤ (dataset.length : Int))
    (hc : 0 < r.chunkSize) :
    r.nextChunkAddress =
      (if r.doneElements = 0 then (0, 0)
       else (r.doneElements / r.chunkSize,
         r.doneElements % r.chunkSize + 1)) ∧
    appendedRows r.doneElements r.nextChunkAddress.2
        (chunkResponse header dataset r.nextChunkAddress.1 r.chunkSize) =
      (dataset.drop r.doneElements.toNat).take
        (r.chunkSize.toNat - (r.doneElements % r.chunkSize).toNat) ∧
    (r.doneElements < (dataset.length : Int) →
      (appendedRows r.doneElements r.nextChunkAddress.2
        (chunkResponse header dataset r.nextChunkAddress.1
          r.chunkSize))[0]? = dataset[r.doneElements.toNat]?) := by
  refine ⟨nextChunkAddress_eq r hd hc,
    appendedRows_good header dataset r hd hc, ?_⟩
  intro hlt
  rw [appendedRows_good header dataset r hd hc]
  have hm0 : 0 ≤ r.doneElements % r.chunkSize :=
    Int.emod_nonneg _ (ne_of_gt hc)
  have hmlt : r.doneElements % r.chunkSize < r.chunkSize :=
    Int.emod_lt_of_pos _ hc
  rw [List.getElem?_take_of_lt (by omega), List.getElem?_drop]
  norm_num

/-- Witness for C1: `doneElements = 7`, `chunkSize = 3` over a ten-row
dataset. -/
theorem C1_chunk_addressing_witness :
    let r0 : Resumer := ⟨"out", 3, 7, 10, false⟩
    let ds : List String :=
      ["r0", "r1", "r2", "r3", "r4", "r5", "r6", "r7", "r8", "r9"]
    r0.nextChunkAddress =
      (if r0.doneElements = 0 then (0, 0)
       else (r0.doneElements / r0.chunkSize,
         r0.doneElements % r0.chunkSize + 1)) ∧
    appendedRows r0.doneElements r0.nextChunkAddress.2
        (chunkResponse "h" ds r0.nextChunkAddress.1 r0.chunkSize) =
      (ds.drop r0.doneElements.toNat).take
        (r0.chunkSize.toNat - (r0.doneElements % r0.chunkSize).toNat) ∧
    (r0.doneElements < (ds.length : Int) →
      (appendedRows r0.doneElements r0.nextChunkAddress.2
        (chunkResponse "h" ds r0.nextChunkAddress.1
          r0.chunkSize))[0]? = ds[r0.doneElements.toNat]?) :=
  C1_chunk_addressing "h"
    ["r0", "r1", "r2", "r3", "r4", "r5", "r6", "r7", "r8", "r9"]
    ⟨"out", 3, 7, 10, false⟩ (by decide) (by decide) (by decide)

/-- C4 counterexample: two `Resumer` states that differ only in the
in-memory chunk size persist bit-identical checkpoint records (the
unexported `chunkSize` is not serialised, src/main.go:57-66, 571-588), and
a resumed invocation starts back at chunk size 10000 — so a mid-session
reduction of the chunk size does not survive into the stored checkpoint,
contrary to the claim. -/
theorem C4_counterexample :
    Resumer.PersistConfig ⟨"out", 10000, 5, 10, false⟩ =
      Resumer.PersistConfig ⟨"out", 5000, 5, 10, false⟩ ∧
    (⟨"out", 10000, 5, 10, false⟩ : Resumer).chunkSize ≠
      (⟨"out", 5000, 5, 10, false⟩ : Resumer).chunkSize ∧
    (initResume
      (Resumer.PersistConfig ⟨"out", 5000, 5, 10, false⟩)
      false).chunkSize = 10000 := by
  decide

/-- C4 (amended): the checkpoint record persisted by `PersistConfig`
durably contains the rows written, total rows, detail flag and output
filename, but NOT the chunk size: states differing only in chunk size
persist the same record, and a resumed invocation always restarts with
`chunkSize = 10000` while the other fields survive. -/
theorem C4_checkpoint_contents (r : Resumer) :
    r.PersistConfig =
      ⟨r.outputFilename, r.doneElements, r.totalElements, r.noDetails⟩ ∧
    (∀ c : Int, Resumer.PersistConfig { r with chunkSize := c } =
      r.PersistConfig) ∧
    (initResume r.PersistConfig r.noDetails).chunkSize = 10000 ∧
    (initResume r.PersistConfig r.noDetails).doneElements =
      r.doneElements ∧
    (initResume r.PersistConfig r.noDetails).totalElements =
      r.totalElements ∧
    (initResume r.PersistConfig r.noDetails).noDetails = r.noDetails := by
  have hinit := initResume_same r.PersistConfig
  refine ⟨rfl, fun c => rfl, ?_, ?_, ?_, ?_⟩
  · show (initResume r.PersistConfig
      (r.PersistConfig).noDetails).chunkSize = 10000
    rw [hinit]
  · show (initResume r.PersistConfig
      (r.PersistConfig).noDetails).doneElements = r.doneElements
    rw [hinit]
    rfl
  · show (initResume r.PersistConfig
      (r.PersistConfig).noDetails).totalElements = r.totalElements
    rw [hinit]
    rfl
  · show (initResume r.PersistConfig
      (r.PersistConfig).noDetails).noDetails = r.noDetails
    rw [hinit]
    rfl

/-- C5 counterexample: with `chunkSize = 1000` and `timeoutCount = 2`, a
504 makes `timeoutCount` reach 3, yet the chunk size does not decrease
(the guard `chunkSize - 1000 > 0` fails, src/main.go:299) and
`timeoutCount` is NOT reset — contrary to the claim that reaching 3 always
shrinks by 1000 (clamped above 0) and resets the counter. -/
theorem C5_counterexample :
    (loopIter (fun _ _ => ([] : List String))
      { resumer := ⟨"out", 1000, 500, 5000, false⟩, timeoutCount := 2,
        errorCount := 0, file := [], sidecar := none }
      (.ok 0 504 false)).1.timeoutCount = 3 ∧
    (loopIter (fun _ _ => ([] : List String))
      { resumer := ⟨"out", 1000, 500, 5000, false⟩, timeoutCount := 2,
        errorCount := 0, file := [], sidecar := none }
      (.ok 0 504 false)).1.resumer.chunkSize = 1000 := by
  decide

/-- C5 (amended): on each 504 the engine sleeps 30 seconds and retries
without advancing `doneElements`, after incrementing `timeoutCount`; when
the incremented counter has reached 3 AND `chunkSize > 1000`, the chunk
size decreases by exactly 1000 and the counter resets to 0; otherwise —
including the case `chunkSize ≤ 1000`, where the claim expected a clamped
shrink and a reset — the chunk size is unchanged and the counter keeps its
incremented value.  A fourth 504 immediately after a reset does not shrink
again (`timeoutCount + 1 = 1 < 3`). -/
theorem C5_timeout_504 (server : Int → Int → List String)
    (st : EngineState) (f : Nat)
    (hne : st.resumer.doneElements ≠ st.resumer.totalElements)
    (hcl : st.resumer.chunkSize ≤
      st.resumer.totalElements - st.resumer.doneElements) :
    loopIter server st (.ok f 504 false) =
      ((if st.timeoutCount + 1 ≥ 3 ∧ 1000 < st.resumer.chunkSize then
          { st with
            resumer := { st.resumer with
              chunkSize := st.resumer.chunkSize - 1000 },
            timeoutCount := 0,
            errorCount := st.errorCount + (f : Int) + 1 }
        else { st with
               timeoutCount := st.timeoutCount + 1,
               errorCount := st.errorCount + (f : Int) + 1 }),
       [Event.networkCall st.resumer.nextChunkAddress.1
          st.resumer.chunkSize, Event.sleep30],
       StepOutcome.next) := by
  rw [loopIter_ok _ _ _ _ _ hne, clampState_id st hcl, handleStatus_504]
  refine congrArg (fun s => (s,
    [Event.networkCall st.resumer.nextChunkAddress.1
      st.resumer.chunkSize, Event.sleep30], StepOutcome.next)) ?_
  by_cases h3 : st.timeoutCount + 1 ≥ 3
  · by_cases h1000 : st.resumer.chunkSize - 1000 > 0
    · rw [if_pos h3, if_pos h1000, if_pos (by omega :
        st.timeoutCount + 1 ≥ 3 ∧ 1000 < st.resumer.chunkSize)]
    · rw [if_pos h3, if_neg h1000, if_neg (by omega :
        ¬(st.timeoutCount + 1 ≥ 3 ∧ 1000 < st.resumer.chunkSize))]
  · rw [if_neg h3, if_neg (by omega :
      ¬(st.timeoutCount + 1 ≥ 3 ∧ 1000 < st.resumer.chunkSize))]

/-- Witness for C5: `chunkSize = 10000`, `timeoutCount = 2`: the third 504
shrinks the chunk size to 9000 and resets the counter. -/
theorem C5_timeout_504_witness :
    loopIter (fun _ _ => ([] : List String))
      { resumer := ⟨"out", 10000, 500, 50000, false⟩, timeoutCount := 2,
        errorCount := 0, file := [], sidecar := none }
      (.ok 0 504 false) =
      ({ resumer := ⟨"out", 9000, 500, 50000, false⟩, timeoutCount := 0,
         errorCount := 1, file := [], sidecar := none },
       [Event.networkCall 0 10000, Event.sleep30],
       StepOutcome.next) :=
  (C5_timeout_504 (fun _ _ => ([] : List String))
    { resumer := ⟨"out", 10000, 500, 50000, false⟩, timeoutCount := 2,
      errorCount := 0, file := [], sidecar := none }
    0 (by decide) (by decide)).trans (by decide)

/-- C6 counterexample: the claim says a 429 is not counted as a true error
(the exposed error counter is not incremented); on the code every non-200
status, 429 included, increments `errorCount` (src/main.go:265-267).
Starting from a session state with `errorCount = 0`, one 429 response
leaves `errorCount = 1`. -/
theorem C6_counterexample :
    (initState "h" ["a", "b", "c"] "out" false 1).errorCount = 0 ∧
    (loopIter (goodServer "h" ["a", "b", "c"])
      (initState "h" ["a", "b", "c"] "out" false 1)
      (.ok 0 429 false)).1.errorCount = 1 := by
  decide

/-- C6 (amended): a 429 leaves `chunkSize` (as already clamped before the
request), `doneElements` and `timeoutCount` unchanged, pauses exactly once
for 30 seconds, and retries the identical request (the state, hence the
next address, is unchanged) — but the exposed error counter IS incremented
by the blanket non-200 increment, contrary to the claim. -/
theorem C6_throttle_429 (server : Int → Int → List String)
    (st : EngineState) (f : Nat)
    (hne : st.resumer.doneElements ≠ st.resumer.totalElements)
    (hcl : st.resumer.chunkSize ≤
      st.resumer.totalElements - st.resumer.doneElements) :
    loopIter server st (.ok f 429 false) =
      ({ st with errorCount := st.errorCount + (f : Int) + 1 },
       [Event.networkCall st.resumer.nextChunkAddress.1
          st.resumer.chunkSize, Event.sleep30],
       StepOutcome.next) := by
  rw [loopIter_ok _ _ _ _ _ hne, clampState_id st hcl, handleStatus_429]

/-- Witness for C6: one 429 from a mid-session state. -/
theorem C6_throttle_429_witness :
    loopIter (fun _ _ => ([] : List String))
      { resumer := ⟨"out", 2, 1, 5, false⟩, timeoutCount := 0,
        errorCount := 0, file := [], sidecar := none }
      (.ok 0 429 false) =
      ({ resumer := ⟨"out", 2, 1, 5, false⟩, timeoutCount := 0,
         errorCount := 1, file := [], sidecar := none },
       [Event.networkCall 0 2, Event.sleep30],
       StepOutcome.next) :=
  (C6_throttle_429 (fun _ _ => ([] : List String))
    { resumer := ⟨"out", 2, 1, 5, false⟩, timeoutCount := 0,
      errorCount := 0, file := [], sidecar := none }
    0 (by decide) (by decide)).trans (by decide)

/-- C10: a status that is neither 200 nor in `[400, 600)` — 301 and 204
for example — increments the exposed error counter and is then handled
exactly like a 200: the response body is parsed as rows, appended to the
output, `doneElements` advances, the checkpoint is persisted, and the loop
continues (no retry, no abort) — the iteration is identical to the 200
iteration except for the one extra error-counter increment. -/
theorem C10_nonstandard_status (server : Int → Int → List String)
    (st : EngineState) (f : Nat) (status : Int)
    (hne : st.resumer.doneElements ≠ st.resumer.totalElements)
    (h200 : status ≠ 200)
    (hout : ¬(400 ≤ status ∧ status < 600)) :
    loopIter server st (.ok f status false) =
      ({ (loopIter server st (.ok f 200 false)).1 with
          errorCount :=
            (loopIter server st (.ok f 200 false)).1.errorCount + 1 },
       (loopIter server st (.ok f 200 false)).2.1,
       (loopIter server st (.ok f 200 false)).2.2) ∧
    (loopIter server st (.ok f 200 false)).2.2 = StepOutcome.next := by
  constructor
  · rw [loopIter_ok _ _ _ _ _ hne, loopIter_ok _ _ _ _ _ hne,
      handleStatus_proc_ne200 server _ f status false hout h200,
      handleStatus_200,
      processChunkState_errc server (clampState st)
        ((clampState st).errorCount + (f : Int) + 1),
      processChunkState_errc server (clampState st)
        ((clampState st).errorCount + (f : Int))]
  · rw [loopIter_ok _ _ _ _ _ hne, handleStatus_200]
    rfl

/-- Witness for C10: a 301 over a three-row dataset mid-session. -/
theorem C10_nonstandard_status_witness :
    (loopIter (goodServer "h" ["a", "b", "c"])
      (initState "h" ["a", "b", "c"] "out" false 1)
      (.ok 0 301 false) =
      ({ (loopIter (goodServer "h" ["a", "b", "c"])
          (initState "h" ["a", "b", "c"] "out" false 1)
          (.ok 0 200 false)).1 with
          errorCount :=
            (loopIter (goodServer "h" ["a", "b", "c"])
              (initState "h" ["a", "b", "c"] "out" false 1)
              (.ok 0 200 false)).1.errorCount + 1 },
       (loopIter (goodServer "h" ["a", "b", "c"])
          (initState "h" ["a", "b", "c"] "out" false 1)
          (.ok 0 200 false)).2.1,
       (loopIter (goodServer "h" ["a", "b", "c"])
          (initState "h" ["a", "b", "c"] "out" false 1)
          (.ok 0 200 false)).2.2) ∧
      (loopIter (goodServer "h" ["a", "b", "c"])
        (initState "h" ["a", "b", "c"] "out" false 1)
        (.ok 0 200 false)).2.2 = StepOutcome.next) :=
  C10_nonstandard_status (goodServer "h" ["a", "b", "c"])
    (initState "h" ["a", "b", "c"] "out" false 1) 0 301
    (by decide) (by decide) (by decide)

/-- C7 (code-bug evaluation): the claim — and the spec — say a detail-flag
mismatch between the persisted checkpoint and the resuming invocation
hard-aborts before any network call, modifying neither the output file nor
the sidecar.  In the code the mismatch check (src/main.go:193-196) prints a
warning and `return`s from `init`, but a `return` from Go's `init` does not
terminate the process: `main` still runs, with `chunkSize` left at its zero
value 0 because line 203 was skipped.  Evaluated at the failing input:
with a mismatched checkpoint at `doneElements = 0` the very first
iteration performs a network call (`chunk=0&chunk_size=0`), and with a
mismatched checkpoint at `doneElements = totalElements` the sidecar is
even removed. -/
theorem C7_mismatch_eval :
    (initResume ⟨"out", 0, 10, true⟩ false).chunkSize = 0 ∧
    (run (fun _ _ => ([] : List String)) (fun _ => FetchResult.netFail) 1 0
      { resumer := initResume ⟨"out", 0, 10, true⟩ false,
        timeoutCount := 0, errorCount := 0, file := ["hdr"],
        sidecar := some ⟨"out", 0, 10, true⟩ }).2.1 =
      [Event.networkCall 0 0] ∧
    (run (fun _ _ => ([] : List String)) (fun _ => FetchResult.netFail) 1 0
      { resumer := initResume ⟨"out", 10, 10, true⟩ false,
        timeoutCount := 0, errorCount := 0, file := ["hdr"],
        sidecar := some ⟨"out", 10, 10, true⟩ }).1.sidecar = none ∧
    (run (fun _ _ => ([] : List String)) (fun _ => FetchResult.netFail) 1 0
      { resumer := initResume ⟨"out", 10, 10, true⟩ false,
        timeoutCount := 0, errorCount := 0, file := ["hdr"],
        sidecar := some ⟨"out", 10, 10, true⟩ }).2.1 =
      [Event.removeSidecar] := by
  decide

/-- C8: in every state reachable by the transfer loop against a conforming
server — from a properly initialised session start (fresh or resumed),
after each iteration, through every retry and shrink path —
`0 ≤ doneElements ≤ totalElements` and `chunkSize > 0` hold. -/
theorem C8_loop_invariant (header : String) (dataset : List String)
    (st : EngineState) (h : Reachable header dataset st) :
    0 ≤ st.resumer.doneElements ∧
    st.resumer.doneElements ≤ st.resumer.totalElements ∧
    0 < st.resumer.chunkSize := by
  obtain ⟨h1, h2, h3, _, _, _⟩ := reachable_sessionInv header dataset st h
  exact ⟨h1, h2, h3⟩

/-- Witness for C8 at a concrete reachable state. -/
theorem C8_loop_invariant_witness :
    0 ≤ (initState "h" ["a", "b"] "out" false 1).resumer.doneElements ∧
    (initState "h" ["a", "b"] "out" false 1).resumer.doneElements ≤
      (initState "h" ["a", "b"] "out" false 1).resumer.totalElements ∧
    0 < (initState "h" ["a", "b"] "out" false 1).resumer.chunkSize :=
  C8_loop_invariant "h" ["a", "b"] _
    (Reachable.start "out" false 1 (by decide) (by decide))

/-- C9: along any run of the transfer loop the checkpoint sidecar is
removed exactly once, at the loop entry where
`doneElements = totalElements`, as the very last event of the session — so
no network call happens after it and the session just reports completion;
on every abort path (fatal status, exhausted retries, malformed chunk) and
on fuel exhaustion the sidecar is never removed. -/
theorem C9_sidecar_removal (server : Int → Int → List String)
    (oracle : Nat → FetchResult) (fuel k : Nat) (st : EngineState) :
    ((run server oracle fuel k st).2.2 = RunResult.finished →
      ∃ pre, (run server oracle fuel k st).2.1 =
          pre ++ [Event.removeSidecar] ∧
        Event.removeSidecar ∉ pre) ∧
    ((run server oracle fuel k st).2.2 ≠ RunResult.finished →
      Event.removeSidecar ∉ (run server oracle fuel k st).2.1) :=
  run_removeSidecar server oracle fuel k st

/-- Witness for C9: a completed two-iteration session over one row. -/
theorem C9_sidecar_removal_witness :
    ∃ pre, (run (goodServer "h" ["a"]) all200 2 0
        (initState "h" ["a"] "out" false 0)).2.1 =
      pre ++ [Event.removeSidecar] ∧ Event.removeSidecar ∉ pre :=
  (C9_sidecar_removal (goodServer "h" ["a"]) all200 2 0
    (initState "h" ["a"] "out" false 0)).1 (by decide)

/-- C2: interrupting a session at any reachable state — in particular
immediately after a chunk's rows have been flushed and its checkpoint
persisted — and resuming in a later invocation from that persisted
checkpoint over the on-disk file yields, after a fault-free completion, an
output file byte-identical to the one produced by an uninterrupted
fault-free run over the same dataset: no row missing, no row duplicated. -/
theorem C2_resume_byte_identical (header : String) (dataset : List String)
    (st : EngineState) (cp : ResumerRecord)
    (h : Reachable header dataset st) (hcp : st.sidecar = some cp) :
    cp = st.resumer.PersistConfig ∧
    (run (goodServer header dataset) all200 (dataset.length + 1) 0
      (initState header dataset st.resumer.outputFilename
        st.resumer.noDetails 0)).2.2 = RunResult.finished ∧
    (run (goodServer header dataset) all200
      ((st.resumer.totalElements - st.resumer.doneElements).toNat + 1) 0
      (resumeInvocation cp st.file)).2.2 = RunResult.finished ∧
    (run (goodServer header dataset) all200
      ((st.resumer.totalElements - st.resumer.doneElements).toNat + 1) 0
      (resumeInvocation cp st.file)).1.file =
    (run (goodServer header dataset) all200 (dataset.length + 1) 0
      (initState header dataset st.resumer.outputFilename
        st.resumer.noDetails 0)).1.file := by
  obtain ⟨hd, hdt, hc, htot, hfile, hsc⟩ :=
    reachable_sessionInv header dataset st h
  have hcpe : cp = st.resumer.PersistConfig := by
    rcases hsc with h1 | h1
    · rw [hcp] at h1
      exact Option.some.inj h1
    · rw [hcp] at h1
      cases h1
  subst hcpe
  have hfresh : SessionInv header dataset
      (initState header dataset st.resumer.outputFilename
        st.resumer.noDetails 0) :=
    reachable_sessionInv header dataset _
      (Reachable.start st.resumer.outputFilename st.resumer.noDetails 0
        le_rfl (Int.natCast_nonneg _))
  have hresR : (resumeInvocation st.resumer.PersistConfig
        st.file).resumer =
      ⟨st.resumer.outputFilename, 10000, st.resumer.doneElements,
        st.resumer.totalElements, st.resumer.noDetails⟩ := by
    show initResume st.resumer.PersistConfig
      (st.resumer.PersistConfig).noDetails = _
    rw [initResume_same]
    rfl
  have hres : SessionInv header dataset
      (resumeInvocation st.resumer.PersistConfig st.file) := by
    refine ⟨?_, ?_, ?_, ?_, ?_, ?_⟩
    · rw [hresR]; exact hd
    · rw [hresR]; exact hdt
    · rw [hresR]
      show (0 : Int) < 10000
      norm_num
    · rw [hresR]; exact htot
    · rw [hresR]; exact hfile
    · left
      rw [hresR]
      rfl
  obtain ⟨f1, f2⟩ := runGood_finishes header dataset
    (dataset.length + 1) 0
    (initState header dataset st.resumer.outputFilename
      st.resumer.noDetails 0) hfresh
    (by
      show (((dataset.length : Int)) - 0).toNat < dataset.length + 1
      omega)
  obtain ⟨r1, r2⟩ := runGood_finishes header dataset
    ((st.resumer.totalElements - st.resumer.doneElements).toNat + 1) 0
    (resumeInvocation st.resumer.PersistConfig st.file) hres
    (by
      rw [hresR]
      show (st.resumer.totalElements - st.resumer.doneElements).toNat <
        (st.resumer.totalElements - st.resumer.doneElements).toNat + 1
      omega)
  exact ⟨rfl, f1, r1, r2.trans f2.symm⟩

/-- Witness for C2: interruption at `doneElements = 3` of a five-row
session. -/
theorem C2_resume_byte_identical_witness :
    (⟨"out", 3, 5, false⟩ : ResumerRecord) =
      (initState "h" ["a", "b", "c", "d", "e"] "out" false
        3).resumer.PersistConfig ∧
    (run (goodServer "h" ["a", "b", "c", "d", "e"]) all200 6 0
      (initState "h" ["a", "b", "c", "d", "e"] "out" false 0)).2.2 =
      RunResult.finished ∧
    (run (goodServer "h" ["a", "b", "c", "d", "e"]) all200 3 0
      (resumeInvocation ⟨"out", 3, 5, false⟩
        (initState "h" ["a", "b", "c", "d", "e"] "out" false
          3).file)).2.2 = RunResult.finished ∧
    (run (goodServer "h" ["a", "b", "c", "d", "e"]) all200 3 0
      (resumeInvocation ⟨"out", 3, 5, false⟩
        (initState "h" ["a", "b", "c", "d", "e"] "out" false
          3).file)).1.file =
    (run (goodServer "h" ["a", "b", "c", "d", "e"]) all200 6 0
      (initState "h" ["a", "b", "c", "d", "e"] "out" false 0)).1.file :=
  C2_resume_byte_identical "h" ["a", "b", "c", "d", "e"]
    (initState "h" ["a", "b", "c", "d", "e"] "out" false 3)
    ⟨"out", 3, 5, false⟩
    (Reachable.start "out" false 3 (by decide) (by decide)) rfl

/-- Fault-free 25000-row session, initial chunk size 10000: the three data
chunks requested are `(0, 10000)`, `(1, 10000)`, `(4, 5000)`, computed via
the arithmetic abstraction `absRun`. -/
lemma run25000_facts :
    chunkCalls (run (goodServer "h" (List.replicate 25000 "r")) all200 5 0
      (initState "h" (List.replicate 25000 "r") "out" false 0)).2.1 =
      [0, 1, 4] ∧
    chunkCallSizes (run (goodServer "h" (List.replicate 25000 "r")) all200
      5 0 (initState "h" (List.replicate 25000 "r") "out" false 0)).2.1 =
      [10000, 10000, 5000] ∧
    (run (goodServer "h" (List.replicate 25000 "r")) all200 5 0
      (initState "h" (List.replicate 25000 "r") "out" false 0)).2.2 =
      RunResult.finished ∧
    ((run (goodServer "h" (List.replicate 25000 "r")) all200 5 0
      (initState "h" (List.replicate 25000 "r") "out" false
        0)).1).resumer.chunkSize = 5000 := by
  have hInv : SessionInv "h" (List.replicate 25000 "r")
      (initState "h" (List.replicate 25000 "r") "out" false 0) :=
    reachable_sessionInv _ _ _
      (Reachable.start "out" false 0 le_rfl (Int.natCast_nonneg _))
  have hspec := absRun_spec "h" (List.replicate 25000 "r") 5 0
    (initState "h" (List.replicate 25000 "r") "out" false 0) hInv
  have e1 : (initState "h" (List.replicate 25000 "r") "out" false
      0).resumer.doneElements = 0 := rfl
  have e2 : (initState "h" (List.replicate 25000 "r") "out" false
      0).resumer.totalElements =
      (((List.replicate 25000 "r").length : Nat) : Int) := rfl
  have e3 : (initState "h" (List.replicate 25000 "r") "out" false
      0).resumer.chunkSize = 10000 := rfl
  rw [e1, e2, e3, List.length_replicate] at hspec
  have habs : absRun 5 0 (((25000 : Nat) : Int)) 10000 =
      ([((0 : Int), (10000 : Int)), (1, 10000), (4, 5000)], true, 5000) :=
    by decide
  rw [habs] at hspec
  refine ⟨?_, ?_, ?_, ?_⟩
  · rw [hspec.1]
    decide
  · rw [hspec.2.1]
    decide
  · exact hspec.2.2.1.mpr rfl
  · rw [hspec.2.2.2]

/-- C3 counterexample: with `totalElements = 25000` and initial
`chunkSize = 10000`, the error-free run does NOT request chunk indices
`0, 1, 2` — before the final request the chunk size is clamped to 5000
(src/main.go:240-243) and the index is then recomputed as
`⌊20000 / 5000⌋ = 4`, so the requested sequence is `0, 1, 4`. -/
theorem C3_counterexample :
    chunkCalls (run (goodServer "h" (List.replicate 25000 "r")) all200 5 0
      (initState "h" (List.replicate 25000 "r") "out" false 0)).2.1 ≠
      [0, 1, 2] := by
  rw [run25000_facts.1]
  decide

/-- C3 (amended): for `totalElements = 25000` and initial
`chunkSize = 10000`, an error-free run requests the chunk indices
`0, 1, 4` (not `0, 1, 2`) with chunk sizes `10000, 10000, 5000`: before
the final request the in-memory chunk size is reduced to 5000, which also
changes the chunk index arithmetic; the session completes, and the final
in-memory chunk size is 5000 (it is in-memory only — see C4: the chunk
size is never persisted). -/
theorem C3_chunk_sequence :
    chunkCalls (run (goodServer "h" (List.replicate 25000 "r")) all200 5 0
      (initState "h" (List.replicate 25000 "r") "out" false 0)).2.1 =
      [0, 1, 4] ∧
    chunkCallSizes (run (goodServer "h" (List.replicate 25000 "r")) all200
      5 0 (initState "h" (List.replicate 25000 "r") "out" false 0)).2.1 =
      [10000, 10000, 5000] ∧
    (run (goodServer "h" (List.replicate 25000 "r")) all200 5 0
      (initState "h" (List.replicate 25000 "r") "out" false 0)).2.2 =
      RunResult.finished ∧
    ((run (goodServer "h" (List.replicate 25000 "r")) all200 5 0
      (initState "h" (List.replicate 25000 "r") "out" false
        0)).1).resumer.chunkSize = 5000 :=
  run25000_facts

end DataDownloader
